import Mathlib

/-!
Verification development for the feifei baby-dashboard script
(src/data/baby_dashboard.py). The script loads two four-column tables
(sleep records and feeding records), normalizes date/time/numeric cells,
and prepares two charts: a per-day timeline of sleep segments and feeding
markers anchored to a synthetic reference date, and daily aggregate sums.

Shallow embedding conventions:
  - a pandas NaN / missing cell is `Option.none`;
  - a Python `datetime.time` is the `Time` structure below;
  - textual cells are lists of characters, so that the splitting done by
    `str.split` can be reasoned about by structural induction;
  - numeric cells (after `pd.to_numeric(errors=coerce)`) are `Option Rat`;
  - calendar dates are day counts (`Int`), as produced by `daysFromCivil`;
  - Python code that can raise is embedded in `Except String`, the error
    payload naming the exception the interpreter would raise;
  - instants on the reference timeline are seconds from the reference
    midnight (`datetime.date(2000, 1, 1)`), so combining the reference
    date with a time of day is `toSecs`, and the next day adds 86400.
-/

/-- A normalized time of day, the result of a successful
`datetime.datetime.strptime(s, "%H:%M:%S").time()` call. -/
structure Time where
  hour : Nat
  minute : Nat
  second : Nat
deriving DecidableEq

/-- Seconds from midnight: embeds `datetime.datetime.combine(ref_date, t)`
as an instant on the reference timeline. -/
def toSecs (t : Time) : Nat :=
  3600 * t.hour + 60 * t.minute + t.second

/-- Embeds `str.split(":")`: cuts a character list at every colon.
The result is always nonempty, and has one more part than there are
colons in the input. -/
def splitOnColon : List Char → List (List Char)
  | [] => [[]]
  | c :: rest =>
    match splitOnColon rest with
    | [] => [[c]]
    | p :: ps => if c = ':' then [] :: p :: ps else (c :: p) :: ps

/-- Value of a list of decimal digit characters, most significant first,
as computed by Python `int`. -/
def toNatDigits (s : List Char) : Nat :=
  s.foldl (fun n c => 10 * n + (c.toNat - 48)) 0

/-- Embeds the matching of one numeric component of the CPython
`_strptime` regular expression. The `%H` directive compiles to the
pattern alternation 2[0-3], [0-1] then a digit, or one digit, `%M` to
[0-5] then a digit or one digit, and `%S` to 6[0-1], [0-5] then a digit,
or one digit: in every case, one or two decimal digits whose value is at
most a directive-specific bound (23, 59 and 61 respectively). -/
def matchComp (bound : Nat) (s : List Char) : Option Nat :=
  if s ≠ [] ∧ s.length ≤ 2 ∧ s.all Char.isDigit = true ∧ toNatDigits s ≤ bound
  then some (toNatDigits s) else none

/-- Embeds `datetime.datetime.strptime(s, "%H:%M:%S")`: the format
string forces exactly two colons, with each component matched by its
directive; any other shape, or a failed component match, raises
ValueError. A matched time is then passed to the datetime constructor,
which additionally requires the second to be in 0..59 (the %S regex
alone admits the leap seconds 60 and 61) and raises ValueError above
that. Either ValueError is turned into the unknown sentinel by the
caller. -/
def strptimeHMS (s : List Char) : Option Time :=
  match splitOnColon s with
  | [a, b, c] =>
    match matchComp 23 a, matchComp 59 b, matchComp 61 c with
    | some h, some m, some sec => if sec ≤ 59 then some ⟨h, m, sec⟩ else none
    | _, _, _ => none
  | _ => none

/-- Embeds `parse_time` (baby_dashboard.py lines 87-99): a missing cell
(`pd.isna`) is unknown at once; a value containing a colon is split on
it, a two-part value gets ":00" appended before the strptime call, any
other part count goes to strptime as is; a value without a colon, and
any strptime failure, degrade to the unknown sentinel `none`. -/
def parse_time : Option (List Char) → Option Time
  | none => none
  | some s =>
    if ':' ∈ s then
      if (splitOnColon s).length = 2 then strptimeHMS (s ++ [':', '0', '0'])
      else strptimeHMS s
    else none

/-- A normalized sleep row after `load_data_from_github`: the four
positional columns renamed to 日期, 入睡, 睡醒, 总睡眠时间（mins）, the
date parsed, the two time cells run through `parse_time` and the numeric
cell through `pd.to_numeric(errors=coerce)` (NaN is `none`). -/
structure SleepRow where
  date : Int
  sleep_start : Option Time
  sleep_end : Option Time
  duration_minutes : Option Rat
deriving DecidableEq

/-- A normalized feeding row after `load_data_from_github`: columns
renamed to 日期, 哺乳类型, 哺乳时间, 奶量(ml), the time cell run through
`parse_time` and the volume through `pd.to_numeric(errors=coerce)`. -/
structure FeedingRow where
  date : Int
  feeding_type : String
  feeding_time : Option Time
  volume_ml : Option Rat
deriving DecidableEq

/-- One plotted sleep bar of the timeline chart: the two x coordinates
are instants on the reference timeline, `hoverDur` is the hover label
duration, the row duration in hours (the NaN duration stays NaN in the
label: `none`). The y category carries the real date of the record. -/
structure Segment where
  date : Int
  startS : Nat
  endS : Nat
  hoverDur : Option Rat
deriving DecidableEq

/-- Embeds one iteration of the sleep loop of `create_detailed_chart`
(lines 139-176): a row with both endpoints known is mapped onto the
reference date, the end instant is pushed to the next day when it falls
strictly before the start instant, and the trace is emitted; a row with
an unknown endpoint is skipped (the `if start_time and end_time` guard;
a `datetime.time` value is always truthy, `None` falsy). The enclosing
try/except turns any per-row error into a skip, but no expression in the
body can raise: a NaN duration divides and formats as NaN. -/
def sleepSegment (r : SleepRow) : Option Segment :=
  match r.sleep_start, r.sleep_end with
  | some st, some en =>
    let start_dt := toSecs st
    let end_dt := if toSecs en < toSecs st then 86400 + toSecs en else toSecs en
    some ⟨r.date, start_dt, end_dt, r.duration_minutes.map (fun d => d / 60)⟩
  | _, _ => none

/-- The fixed color table of `create_detailed_chart` (lines 182-186);
the feeding loop iterates over exactly these three categories. -/
def recognizedColors : List (String × String) :=
  [("亲喂", "rgb(255, 182, 193)"),
   ("配方奶", "rgb(255, 192, 0)"),
   ("母乳瓶喂", "rgb(173, 216, 230)")]

/-- Embeds the marker size expression of line 207:
max(8, min(20, a/10)) for a known volume, 8 for NaN. -/
def markerSize : Option Rat → Rat
  | some a => max 8 (min 20 (a / 10))
  | none => 8

/-- Embeds `datetime.datetime.combine(ref_date, t)` on a feeding time
(line 198). Combining with `None` raises TypeError: the feeding loop has
no try/except, so this error propagates out of the chart builder. -/
def combineRef : Option Time → Except String Nat
  | some t => .ok (toSecs t)
  | none => .error "TypeError: combine() argument 2 must be datetime.time, not NoneType"

/-- One feeding marker of the timeline chart: x instant on the reference
timeline, the real date for the y category, the marker size, and the
volume shown in the hover text. -/
structure Marker where
  xSecs : Nat
  date : Int
  size : Rat
  volume : Option Rat
deriving DecidableEq

/-- One scatter trace of the feeding part of the chart: a recognized
feeding type, its color, and the markers of all its rows. -/
structure Trace where
  ftype : String
  color : String
  markers : List Marker
deriving DecidableEq

/-- Embeds the marker construction of lines 198-213 for one selected
row: the x value can raise (unknown time), the size and hover volume
cannot (pd.notna guards). -/
def buildMarker (r : FeedingRow) : Except String Marker :=
  (combineRef r.feeding_time).map
    (fun x => ⟨x, r.date, markerSize r.volume_ml, r.volume_ml⟩)

/-- Embeds the feeding loop of `create_detailed_chart` (lines 189-213),
iterating over the color table: for each recognized type the rows of
that type are selected; an empty selection adds no trace; otherwise the
x values are computed for all selected rows (the first unknown time
raises and aborts the whole chart) and one trace is added. -/
def feedingTracesGo (rows : List FeedingRow) : List (String × String) → Except String (List Trace)
  | [] => .ok []
  | (ft, color) :: rest =>
    if ((rows.filter (fun r => r.feeding_type == ft)).isEmpty) then
      feedingTracesGo rows rest
    else do
      let ms ← (rows.filter (fun r => r.feeding_type == ft)).mapM buildMarker
      let ts ← feedingTracesGo rows rest
      pure (⟨ft, color, ms⟩ :: ts)

/-- The feeding half of `create_detailed_chart`, over the full color
table. -/
def feedingTraces (rows : List FeedingRow) : Except String (List Trace) :=
  feedingTracesGo rows recognizedColors

/-- A feeding type the color table knows: exactly the rows the feeding
loop can ever select. -/
def isRecognized (r : FeedingRow) : Bool :=
  recognizedColors.any (fun p => p.1 == r.feeding_type)

/-- The data content of the figure built by `create_detailed_chart`. -/
structure Chart where
  sleepSegs : List Segment
  feedingTs : List Trace
deriving DecidableEq

/-- Embeds `create_detailed_chart`: the sleep loop never raises (its
try/except turns per-row failures into skips), the feeding loop can
raise, and an exception escapes the function (it has no handler), so the
chart as a whole is an `Except` value. -/
def createDetailedChart (sleepRows : List SleepRow) (feedingRows : List FeedingRow) :
    Except String Chart :=
  (feedingTraces feedingRows).map
    (fun ft => ⟨sleepRows.filterMap sleepSegment, ft⟩)

/-- A raw table as read by `pd.read_csv`: a header row (the column
names) and the data rows. -/
structure RawTable where
  header : List String
  rows : List (List String)
deriving DecidableEq

/-- The canonical sleep column names assigned on line 71. -/
def sleepHeader : List String := ["日期", "入睡", "睡醒", "总睡眠时间（mins）"]

/-- The canonical feeding column names assigned on line 77. -/
def feedingHeader : List String := ["日期", "哺乳类型", "哺乳时间", "奶量(ml)"]

/-- Embeds the schema gate of `load_data_from_github` (lines 69-80):
each table must have exactly four columns; otherwise the function
returns `None, None` for BOTH datasets and no further processing of
either table happens. -/
def load_data (sleep feeding : RawTable) : Option (RawTable × RawTable) :=
  if sleep.header.length = 4 then
    if feeding.header.length = 4 then
      some (⟨sleepHeader, sleep.rows⟩, ⟨feedingHeader, feeding.rows⟩)
    else none
  else none

/-- Embeds the daily sleep aggregation of `create_daily_stats_charts`
(lines 259-261): group by date, sum the duration minutes (the pandas
sum skips NaN, so an unknown duration contributes 0), divide by 60. -/
def dailySleepHours (rows : List SleepRow) (d : Int) : Rat :=
  (((rows.filter (fun r => r.date == d)).map
      (fun r => r.duration_minutes.getD 0)).sum) / 60

/-- Embeds the daily milk aggregation of line 264: group by date and
sum the volumes, NaN contributing 0. -/
def dailyMilk (rows : List FeedingRow) (d : Int) : Rat :=
  ((rows.filter (fun r => r.date == d)).map
      (fun r => r.volume_ml.getD 0)).sum

/-- Modelled from the spec: the repository source has no date-range
filter (the script renders everything); section 4.3 of the spec defines
the last-N-days window as end = the maximum date observed in either
dataset and start = end minus N days, both bounds inclusive. Dates are
day counts, as everywhere in this file. -/
def lastNDaysWindow (n : Int) (maxDate : Int) : Int × Int :=
  (maxDate - n, maxDate)

/-- Modelled from the spec: membership of a date in an inclusive
window; filtering keeps the rows whose date lies in the window. -/
def inWindow (w : Int × Int) (d : Int) : Bool :=
  decide (w.1 ≤ d) && decide (d ≤ w.2)

/-- Modelled from the spec: calendar dates as day counts. This is the
standard civil-from-days correspondence for the proleptic Gregorian
calendar (day 0 is 1970-01-01), so that subtracting N from a day count
is exactly moving N calendar days back. -/
def daysFromCivil (y m d : Int) : Int :=
  let y2 := if m ≤ 2 then y - 1 else y
  let era := (if 0 ≤ y2 then y2 else y2 - 399) / 400
  let yoe := y2 - era * 400
  let doy := (153 * (if 2 < m then m - 3 else m + 9) + 2) / 5 + d - 1
  let doe := yoe * 365 + yoe / 4 - yoe / 100 + doy
  era * 146097 + doe - 719468

/-! Helper lemmas about the colon splitter and component matcher. -/

theorem splitOnColon_ne_nil (s : List Char) : splitOnColon s ≠ [] := by
  cases s with
  | nil => simp [splitOnColon]
  | cons c rest =>
    unfold splitOnColon
    cases splitOnColon rest with
    | nil => simp
    | cons p ps =>
      by_cases h : c = ':' <;> simp [h]

theorem splitOnColon_no_colon (s : List Char) (h : ':' ∉ s) : splitOnColon s = [s] := by
  induction s with
  | nil => rfl
  | cons c rest ih =>
    have hc : ¬ c = ':' := fun hc => h (hc ▸ List.mem_cons_self c rest)
    have hr : ':' ∉ rest := fun hm => h (List.mem_cons_of_mem c hm)
    unfold splitOnColon
    rw [ih hr]
    simp [hc]

theorem splitOnColon_append (a b : List Char) (ha : ':' ∉ a) :
    splitOnColon (a ++ ':' :: b) = a :: splitOnColon b := by
  induction a with
  | nil =>
    simp only [List.nil_append]
    conv_lhs => rw [splitOnColon]
    cases hb : splitOnColon b with
    | nil => exact absurd hb (splitOnColon_ne_nil b)
    | cons p ps => simp
  | cons c a2 ih =>
    have hc : ¬ c = ':' := fun hc => ha (hc ▸ List.mem_cons_self c a2)
    have ha2 : ':' ∉ a2 := fun hm => ha (List.mem_cons_of_mem c hm)
    simp only [List.cons_append]
    conv_lhs => rw [splitOnColon]
    rw [ih ha2]
    simp [hc]

theorem matchComp_eq_some {bound : Nat} {s : List Char} {n : Nat}
    (h : matchComp bound s = some n) :
    s ≠ [] ∧ s.length ≤ 2 ∧ s.all Char.isDigit = true ∧ toNatDigits s ≤ bound ∧
      n = toNatDigits s := by
  unfold matchComp at h
  split at h
  · next hcond =>
    exact ⟨hcond.1, hcond.2.1, hcond.2.2.1, hcond.2.2.2, (Option.some.inj h).symm⟩
  · exact absurd h (by simp)

theorem no_colon_of_digits {s : List Char} (h : s.all Char.isDigit = true) : ':' ∉ s := by
  intro hm
  rw [List.all_eq_true] at h
  have hd := h _ hm
  exact absurd hd (by decide)

theorem no_colon_of_matchComp {bound : Nat} {s : List Char} {n : Nat}
    (h : matchComp bound s = some n) : ':' ∉ s :=
  no_colon_of_digits (matchComp_eq_some h).2.2.1

theorem strptimeHMS_decomp (a b c : List Char) (ha : ':' ∉ a) (hb : ':' ∉ b) (hc : ':' ∉ c) :
    strptimeHMS (a ++ ':' :: (b ++ ':' :: c)) =
      match matchComp 23 a, matchComp 59 b, matchComp 61 c with
      | some h, some m, some sec => if sec ≤ 59 then some ⟨h, m, sec⟩ else none
      | _, _, _ => none := by
  unfold strptimeHMS
  rw [splitOnColon_append a _ ha, splitOnColon_append b _ hb, splitOnColon_no_colon c hc]

theorem parse_time_two_parts (a b : List Char) (ha : ':' ∉ a) (hb : ':' ∉ b) :
    parse_time (some (a ++ ':' :: b)) =
      match matchComp 23 a, matchComp 59 b with
      | some h, some m => some ⟨h, m, 0⟩
      | _, _ => none := by
  have hmem : ':' ∈ a ++ ':' :: b := List.mem_append_right _ (List.mem_cons_self _ _)
  have hsplit : splitOnColon (a ++ ':' :: b) = [a, b] := by
    rw [splitOnColon_append a _ ha, splitOnColon_no_colon b hb]
  have hcond : (splitOnColon (a ++ ':' :: b)).length = 2 := by rw [hsplit]; rfl
  have hassoc : (a ++ ':' :: b) ++ [':', '0', '0'] = a ++ ':' :: (b ++ ':' :: ['0', '0']) := by
    simp
  have h00 : matchComp 61 ['0', '0'] = some 0 := by decide
  simp only [parse_time]
  rw [if_pos hmem, if_pos hcond, hassoc,
    strptimeHMS_decomp a b ['0', '0'] ha hb (by decide), h00]
  cases matchComp 23 a <;> cases matchComp 59 b <;> rfl

theorem parse_time_three_parts (a b c : List Char) (ha : ':' ∉ a) (hb : ':' ∉ b)
    (hc : ':' ∉ c) :
    parse_time (some (a ++ ':' :: (b ++ ':' :: c))) =
      match matchComp 23 a, matchComp 59 b, matchComp 61 c with
      | some h, some m, some sec => if sec ≤ 59 then some ⟨h, m, sec⟩ else none
      | _, _, _ => none := by
  have hmem : ':' ∈ a ++ ':' :: (b ++ ':' :: c) :=
    List.mem_append_right _ (List.mem_cons_self _ _)
  have hsplit : splitOnColon (a ++ ':' :: (b ++ ':' :: c)) = a :: b :: splitOnColon c := by
    rw [splitOnColon_append a _ ha, splitOnColon_append b _ hb]
  have hlen : ¬ (splitOnColon (a ++ ':' :: (b ++ ':' :: c))).length = 2 := by
    rw [hsplit]
    have := splitOnColon_ne_nil c
    cases hcc : splitOnColon c with
    | nil => exact absurd hcc this
    | cons p ps => simp
  simp only [parse_time]
  rw [if_pos hmem, if_neg hlen]
  exact strptimeHMS_decomp a b c ha hb hc

theorem parse_time_many_parts (s : List Char) (h4 : 4 ≤ (splitOnColon s).length) :
    parse_time (some s) = none := by
  have hmem : ':' ∈ s := by
    by_contra hn
    rw [splitOnColon_no_colon s hn] at h4
    simp at h4
  have hlen : ¬ (splitOnColon s).length = 2 := by omega
  obtain ⟨w, x, y, z, t, hsp⟩ : ∃ w x y z t, splitOnColon s = w :: x :: y :: z :: t := by
    rcases hsp : splitOnColon s with _ | ⟨w, _ | ⟨x, _ | ⟨y, _ | ⟨z, t⟩⟩⟩⟩ <;>
      rw [hsp] at h4 <;> simp at h4
    exact ⟨w, x, y, z, t, rfl⟩
  simp only [parse_time]
  rw [if_pos hmem, if_neg hlen]
  unfold strptimeHMS
  rw [hsp]

theorem filter_subsume {α : Type} (p q : α → Bool) (h : ∀ x, p x = true → q x = true)
    (l : List α) : (l.filter q).filter p = l.filter p := by
  induction l with
  | nil => rfl
  | cons a t ih =>
    by_cases hq : q a = true
    · by_cases hp : p a = true <;> simp [List.filter_cons, hq, hp, ih]
    · have hp : p a = false := by
        cases hpa : p a
        · rfl
        · exact absurd (h a hpa) hq
      simp [List.filter_cons, hq, hp, ih]

theorem feedingTracesGo_filter (rows : List FeedingRow) (cl : List (String × String))
    (hcl : ∀ p ∈ cl, p ∈ recognizedColors) :
    feedingTracesGo (rows.filter isRecognized) cl = feedingTracesGo rows cl := by
  induction cl with
  | nil => rfl
  | cons pc rest ih =>
    obtain ⟨ft, color⟩ := pc
    have hsel : (rows.filter isRecognized).filter (fun r => r.feeding_type == ft)
        = rows.filter (fun r => r.feeding_type == ft) := by
      apply filter_subsume
      intro r hr
      have hft : r.feeding_type = ft := eq_of_beq hr
      unfold isRecognized
      rw [List.any_eq_true]
      exact ⟨(ft, color), hcl _ (List.mem_cons_self _ _), by simp [hft]⟩
    simp only [feedingTracesGo]
    rw [hsel, ih (fun p hp => hcl p (List.mem_cons_of_mem _ hp))]

/-! The claims. -/

/-- Claim C1: for a sleep record with both endpoints known, the segment
maps both times onto the same reference date (the start instant is the
start time of day, the end instant the end time of day); when the mapped
end instant is strictly earlier than the mapped start instant the end
instant is advanced by exactly one day (86400 seconds), and otherwise it
is left on the reference date. The 23:30 to 00:15 record of the claim is
checked in the witness: its end instant is 45 minutes after its start. -/
theorem sleep_segment_midnight_rollover (r : SleepRow) (st en : Time)
    (hs : r.sleep_start = some st) (he : r.sleep_end = some en) :
    ∃ seg, sleepSegment r = some seg ∧ seg.date = r.date ∧ seg.startS = toSecs st ∧
      (toSecs en < toSecs st → seg.endS = 86400 + toSecs en) ∧
      (toSecs st ≤ toSecs en → seg.endS = toSecs en) := by
  refine ⟨⟨r.date, toSecs st,
      if toSecs en < toSecs st then 86400 + toSecs en else toSecs en,
      r.duration_minutes.map (fun d => d / 60)⟩,
    ?_, rfl, rfl, fun h => ?_, fun h => ?_⟩
  · simp [sleepSegment, hs, he]
  · exact if_pos h
  · exact if_neg (not_lt.mpr h)

/-- Witness for claim C1: the record with start 23:30 and end 00:15 is
emitted and its end instant is exactly 45 minutes after its start. -/
theorem sleep_segment_midnight_rollover_witness :
    (⟨0, some ⟨23, 30, 0⟩, some ⟨0, 15, 0⟩, none⟩ : SleepRow).sleep_start = some ⟨23, 30, 0⟩ ∧
    ∃ seg, sleepSegment ⟨0, some ⟨23, 30, 0⟩, some ⟨0, 15, 0⟩, none⟩ = some seg ∧
      seg.endS = seg.startS + 45 * 60 := by
  refine ⟨rfl, ?_⟩
  obtain ⟨seg, hseg, _, hstart, hroll, _⟩ :=
    sleep_segment_midnight_rollover ⟨0, some ⟨23, 30, 0⟩, some ⟨0, 15, 0⟩, none⟩
      ⟨23, 30, 0⟩ ⟨0, 15, 0⟩ rfl rfl
  refine ⟨seg, hseg, ?_⟩
  rw [hroll (by decide), hstart]
  decide

/-- Claim C2: the Time Parser is total (embedded as a function, it can
raise nothing); an absent value yields unknown at once; a value without
a colon yields unknown; a two-part colon value whose components pass the
strptime directives is parsed with seconds defaulting to zero, recovering
hour and minute exactly; a three-part value whose components pass the
directives and whose second passes the datetime constructor (at most 59)
is parsed directly, recovering hour, minute and second exactly; any
other part count yields unknown; a two-part value with a failing
component (non-numeric, too long, or out of range) yields unknown; and a
three-part value whose second passes the %S regex but not the
constructor (60 or 61) yields unknown. -/
theorem parse_time_shape_spec :
    parse_time none = none ∧
    (∀ s : List Char, ':' ∉ s → parse_time (some s) = none) ∧
    (∀ a b : List Char, ∀ h m : Nat,
      matchComp 23 a = some h → matchComp 59 b = some m →
      parse_time (some (a ++ ':' :: b)) = some ⟨h, m, 0⟩) ∧
    (∀ a b c : List Char, ∀ h m sec : Nat,
      matchComp 23 a = some h → matchComp 59 b = some m → matchComp 61 c = some sec →
      sec ≤ 59 →
      parse_time (some (a ++ ':' :: (b ++ ':' :: c))) = some ⟨h, m, sec⟩) ∧
    (∀ s : List Char, 4 ≤ (splitOnColon s).length → parse_time (some s) = none) ∧
    (∀ a b : List Char, ':' ∉ a → ':' ∉ b →
      matchComp 23 a = none ∨ matchComp 59 b = none →
      parse_time (some (a ++ ':' :: b)) = none) ∧
    (∀ a b c : List Char, ∀ h m sec : Nat,
      matchComp 23 a = some h → matchComp 59 b = some m → matchComp 61 c = some sec →
      59 < sec →
      parse_time (some (a ++ ':' :: (b ++ ':' :: c))) = none) := by
  refine ⟨rfl, ?_, ?_, ?_, parse_time_many_parts, ?_, ?_⟩
  · intro s hs
    simp only [parse_time]
    rw [if_neg hs]
  · intro a b h m hha hhb
    rw [parse_time_two_parts a b (no_colon_of_matchComp hha) (no_colon_of_matchComp hhb),
      hha, hhb]
  · intro a b c h m sec hha hhb hhc hsec
    rw [parse_time_three_parts a b c (no_colon_of_matchComp hha) (no_colon_of_matchComp hhb)
      (no_colon_of_matchComp hhc), hha, hhb, hhc]
    exact if_pos hsec
  · intro a b ha hb h
    rw [parse_time_two_parts a b ha hb]
    rcases h with h | h
    · rw [h]
    · rw [h]
      cases matchComp 23 a <;> rfl
  · intro a b c h m sec hha hhb hhc hsec
    rw [parse_time_three_parts a b c (no_colon_of_matchComp hha) (no_colon_of_matchComp hhb)
      (no_colon_of_matchComp hhc), hha, hhb, hhc]
    exact if_neg (not_le.mpr hsec)

/-- Witness for claim C2 at the valid two-part string 07:30 (hour 7 and
minute 30 are recovered exactly and the second defaults to zero) and at
the string 08:15:60, whose second passes the %S regex but is rejected by
the datetime constructor. -/
theorem parse_time_shape_spec_witness :
    matchComp 23 ['0', '7'] = some 7 ∧ matchComp 59 ['3', '0'] = some 30 ∧
    parse_time (some (['0', '7'] ++ ':' :: ['3', '0'])) = some ⟨7, 30, 0⟩ ∧
    matchComp 61 ['6', '0'] = some 60 ∧
    parse_time (some (['0', '8'] ++ ':' :: (['1', '5'] ++ ':' :: ['6', '0']))) = none :=
  ⟨by decide, by decide,
    parse_time_shape_spec.2.2.1 ['0', '7'] ['3', '0'] 7 30 (by decide) (by decide),
    by decide,
    parse_time_shape_spec.2.2.2.2.2.2 ['0', '8'] ['1', '5'] ['6', '0'] 8 15 60
      (by decide) (by decide) (by decide) (by decide)⟩

/-- Claim C3 counterexample: the claim says the two-numeric-part string
25:99 is NOT rejected as unknown, being accepted by shape alone; but the
embedded strptime directives range-check their components (the %H
pattern admits no value above 23), so the parser rejects 25:99 and
returns the unknown sentinel. -/
theorem parse_time_25_99_unknown : parse_time (some ['2', '5', ':', '9', '9']) = none := by
  decide

/-- Claim C3 amended: the parser does range-check hour and minute, not
only shape: a two-part colon string whose hour component fails the %H
directive (as 25 does) or whose minute component fails the %M directive
(as 99 does) is rejected and yields the unknown sentinel. -/
theorem parse_time_range_checked (a b : List Char) (ha : ':' ∉ a) (hb : ':' ∉ b)
    (h : matchComp 23 a = none ∨ matchComp 59 b = none) :
    parse_time (some (a ++ ':' :: b)) = none := by
  rw [parse_time_two_parts a b ha hb]
  rcases h with h | h
  · rw [h]
  · rw [h]
    cases matchComp 23 a <;> rfl

/-- Witness for the amended claim C3 at the string 25:99: the hour
component 25 fails the %H directive, so the parse result is unknown. -/
theorem parse_time_range_checked_witness :
    (':' ∉ ['2', '5']) ∧ matchComp 23 ['2', '5'] = none ∧
    parse_time (some (['2', '5'] ++ ':' :: ['9', '9'])) = none :=
  ⟨by decide, by decide,
    parse_time_range_checked ['2', '5'] ['9', '9'] (by decide) (by decide)
      (Or.inl (by decide))⟩

/-- Claim C4 (a code bug): the claim says a per-cell coercion failure
never aborts the pipeline. The parser does degrade a malformed feeding
time to the unknown sentinel, and an unknown volume is tolerated (second
conjunct: the chart still renders, with the default marker size); but a
feeding row of a recognized type whose time is the unknown sentinel
makes the feeding loop call combine(ref_date, None), which raises
TypeError out of `create_detailed_chart` (first conjunct), so that one
bad cell prevents the whole dashboard from rendering. -/
theorem feeding_unknown_time_aborts_chart :
    createDetailedChart [] [⟨0, "亲喂", none, some 100⟩] =
      .error "TypeError: combine() argument 2 must be datetime.time, not NoneType" ∧
    createDetailedChart [] [⟨0, "亲喂", some ⟨8, 0, 0⟩, none⟩] =
      .ok ⟨[], [⟨"亲喂", "rgb(255, 182, 193)", [⟨28800, 0, 8, none⟩]⟩]⟩ :=
  ⟨rfl, rfl⟩

/-- Claim C5 counterexample: the claim says a feeding record with an
unrecognized feeding type is preserved in the timeline output, emitted
in a default style; but the feeding loop iterates only over the three
recognized categories, so a chart built from one record typed 水 emits
no trace at all: the record is dropped. -/
theorem unrecognized_feeding_type_dropped :
    feedingTraces [⟨0, "水", some ⟨9, 0, 0⟩, some 100⟩] = .ok [] := rfl

/-- Claim C5 amended: feeding records with unrecognized feeding types
are dropped from the chart series, not preserved: removing them from the
input leaves the feeding traces unchanged, and an input consisting only
of an unrecognized record produces no trace. -/
theorem feeding_traces_only_recognized :
    (∀ rows : List FeedingRow,
      feedingTraces (rows.filter isRecognized) = feedingTraces rows) ∧
    feedingTraces [⟨0, "其他", some ⟨9, 0, 0⟩, some 50⟩] = .ok [] :=
  ⟨fun rows => feedingTracesGo_filter rows recognizedColors (fun _ hp => hp), rfl⟩

/-- Claim C6: the marker size is the clamp max(8, min(20, volume/10)):
unknown and 0 give 8, 100 gives 10, 500 gives the upper clamp 20; it is
monotone in the volume and always within [8, 20]; and the marker built
for a feeding row with a known time carries exactly this size. -/
theorem marker_size_clamped :
    markerSize none = 8 ∧ markerSize (some 0) = 8 ∧ markerSize (some 100) = 10 ∧
    markerSize (some 500) = 20 ∧
    (∀ v : Rat, markerSize (some v) = max 8 (min 20 (v / 10))) ∧
    (∀ v w : Rat, v ≤ w → markerSize (some v) ≤ markerSize (some w)) ∧
    (∀ v : Rat, 8 ≤ markerSize (some v) ∧ markerSize (some v) ≤ 20) ∧
    (∀ r : FeedingRow, ∀ t : Time, r.feeding_time = some t →
      buildMarker r = .ok ⟨toSecs t, r.date, markerSize r.volume_ml, r.volume_ml⟩) := by
  refine ⟨rfl, ?_, ?_, ?_, fun v => rfl, ?_, ?_, ?_⟩
  · norm_num [markerSize, max_def, min_def]
  · norm_num [markerSize, max_def, min_def]
  · norm_num [markerSize, max_def, min_def]
  · intro v w h
    simp only [markerSize]
    gcongr
  · intro v
    refine ⟨?_, ?_⟩ <;> simp only [markerSize]
    · exact le_max_left _ _
    · exact max_le (by norm_num) (min_le_left _ _)
  · intro r t ht
    unfold buildMarker
    rw [ht]
    rfl

/-- Witness for claim C6: monotonicity applied at volumes 0 and 10, and
the marker built for a concrete row with time 08:30 and volume 120. -/
theorem marker_size_clamped_witness :
    (0 : Rat) ≤ 10 ∧ markerSize (some 0) ≤ markerSize (some 10) ∧
    buildMarker ⟨3, "亲喂", some ⟨8, 30, 0⟩, some 120⟩ =
      .ok ⟨toSecs ⟨8, 30, 0⟩, 3, markerSize (some 120), some 120⟩ :=
  ⟨by decide, marker_size_clamped.2.2.2.2.2.1 0 10 (by decide),
    marker_size_clamped.2.2.2.2.2.2.2 ⟨3, "亲喂", some ⟨8, 30, 0⟩, some 120⟩ ⟨8, 30, 0⟩ rfl⟩

/-- Claim C7: if either loaded table does not have exactly four columns,
the whole load returns nothing (the Python function returns None, None):
both datasets fail together and no partial result exists, whatever the
other table looks like. -/
theorem schema_mismatch_aborts_load (s f : RawTable)
    (h : s.header.length ≠ 4 ∨ f.header.length ≠ 4) :
    load_data s f = none := by
  unfold load_data
  rcases h with h | h
  · rw [if_neg h]
  · by_cases h2 : s.header.length = 4
    · rw [if_pos h2, if_neg h]
    · rw [if_neg h2]

/-- Witness for claim C7: a three-column sleep table aborts the load
even though the feeding table is well-formed with four columns. -/
theorem schema_mismatch_aborts_load_witness :
    ((⟨["日期", "入睡", "睡醒"], []⟩ : RawTable).header.length ≠ 4) ∧
    load_data ⟨["日期", "入睡", "睡醒"], []⟩ ⟨["日期", "哺乳类型", "哺乳时间", "奶量(ml)"], []⟩ = none :=
  ⟨by decide, schema_mismatch_aborts_load _ _ (Or.inl (by decide))⟩

/-- Claim C8 (spec-modelled, the source has no date-range filter): the
last-7-days window with maximum observed date 2024-03-10 is the
inclusive range from 2024-03-03 to 2024-03-10; 2024-03-03 is included,
2024-03-02 is excluded, and the end date itself is included. -/
theorem last7_window_2024_03_10 :
    lastNDaysWindow 7 (daysFromCivil 2024 3 10) =
      (daysFromCivil 2024 3 3, daysFromCivil 2024 3 10) ∧
    inWindow (lastNDaysWindow 7 (daysFromCivil 2024 3 10)) (daysFromCivil 2024 3 3) = true ∧
    inWindow (lastNDaysWindow 7 (daysFromCivil 2024 3 10)) (daysFromCivil 2024 3 2) = false ∧
    inWindow (lastNDaysWindow 7 (daysFromCivil 2024 3 10)) (daysFromCivil 2024 3 10) = true := by
  decide

/-- Claim C9: daily aggregation is invariant under input row order: for
permuted sleep datasets and permuted feeding datasets, the per-date
total sleep hours (unknown durations summing as 0, minutes divided by
60) and the per-date total milk volume agree at every date. -/
theorem daily_aggregation_perm_invariant (s1 s2 : List SleepRow) (f1 f2 : List FeedingRow)
    (hs : List.Perm s1 s2) (hf : List.Perm f1 f2) (d : Int) :
    dailySleepHours s1 d = dailySleepHours s2 d ∧ dailyMilk f1 d = dailyMilk f2 d := by
  constructor
  · unfold dailySleepHours
    rw [List.Perm.sum_eq (List.Perm.map _ (List.Perm.filter _ hs))]
  · unfold dailyMilk
    rw [List.Perm.sum_eq (List.Perm.map _ (List.Perm.filter _ hf))]

/-- Witness for claim C9 on two-row datasets swapped: the date-5 sums
agree between the two orders. -/
theorem daily_aggregation_perm_invariant_witness :
    List.Perm [(⟨5, none, none, some 30⟩ : SleepRow), ⟨5, none, none, none⟩]
      [⟨5, none, none, none⟩, ⟨5, none, none, some 30⟩] ∧
    dailySleepHours [⟨5, none, none, some 30⟩, ⟨5, none, none, none⟩] 5 =
      dailySleepHours [⟨5, none, none, none⟩, ⟨5, none, none, some 30⟩] 5 ∧
    dailyMilk [(⟨5, "亲喂", none, some 90⟩ : FeedingRow), ⟨5, "配方奶", none, some 60⟩] 5 =
      dailyMilk [⟨5, "配方奶", none, some 60⟩, ⟨5, "亲喂", none, some 90⟩] 5 := by
  have hs := List.Perm.swap (⟨5, none, none, none⟩ : SleepRow) ⟨5, none, none, some 30⟩ []
  have hf := List.Perm.swap (⟨5, "配方奶", none, some 60⟩ : FeedingRow)
    ⟨5, "亲喂", none, some 90⟩ []
  have h := daily_aggregation_perm_invariant _ _ _ _ hs hf 5
  exact ⟨hs, h.1, h.2⟩

/-- Claim C10: whether a sleep record appears on the timeline depends
only on its two time endpoints (the segment exists exactly when both are
known), and the hover label carries the duration field itself divided by
60 — an unknown duration stays an unknown hover value and never
suppresses the segment. -/
theorem sleep_segment_ignores_duration :
    (∀ r : SleepRow,
      (sleepSegment r).isSome = (r.sleep_start.isSome && r.sleep_end.isSome)) ∧
    (∀ (d : Int) (st en : Time) (dur : Option Rat),
      (sleepSegment ⟨d, some st, some en, dur⟩).map Segment.hoverDur =
        some (dur.map (fun x => x / 60))) := by
  constructor
  · intro r
    obtain ⟨d, ss, se, dur⟩ := r
    cases ss <;> cases se <;> rfl
  · intro d st en dur
    rfl
